import Mathlib

/-!
Shallow embedding of the rule-based configuration analyzer of
`src/scripts/app/streamlit_app.py` (function `analyze_configuration`,
lines 251-421), together with the pandas row/column access primitives it
relies on (`DataFrame.empty`, `DataFrame.iloc[0]`, `Series.get`,
boolean-mask filtering `df[df[col] == v]`, raising label access
`series[col]`).

Modelling conventions:
  * A pandas `DataFrame` is a column-name list plus a list of rows; the
    frames produced by `execute_query` (oracle_connection_snowflake.py,
    lines 199-230) are rectangular, with scalar cells rendered here as
    strings (the analyzer only ever compares cells against string
    literals and interpolates them into messages).
  * A Python `KeyError` raised by `df[col]` / `series[col]` is modelled
    by the `Res` sum type: `.raised (.keyError col)` aborts the analysis
    exactly as an uncaught exception aborts `analyze_configuration`.
  * `Series.get(col)` returns Python `None` when the label is absent;
    this is `Option.none` here, and Python's f-string rendering of
    `None` is the string "None" (`pyShow`).
-/

/-- An analysis-time Python exception: `KeyError(col)` from a pandas
column/label access on a missing column name. -/
inductive AnalyzeError where
  | keyError (col : String)
deriving Repr, DecidableEq

/-- Outcome of running a piece of Python code that may raise: either a
value or a propagated exception. -/
inductive Res (α : Type) where
  | ok (val : α)
  | raised (err : AnalyzeError)
deriving Repr, DecidableEq

/-- A pandas DataFrame as produced by `execute_query`: named columns and
a list of rows (each row's cells positionally matching `cols`). -/
structure DataFrame where
  cols : List String
  rows : List (List String)
deriving Repr, DecidableEq

/-- `df.empty` in pandas: true when the frame has no rows (or no
columns at all, as for the `pd.DataFrame()` an errored query yields). -/
def DataFrame.isEmptyDf (df : DataFrame) : Bool :=
  df.rows.isEmpty || df.cols.isEmpty

/-- Cell of a row under a column-name list: position of the column name,
then the cell at that position.  `none` when the column is absent. -/
def cellOf (cols : List String) (row : List String) (c : String) : Option String :=
  (cols.findIdx? (fun x => x == c)).bind (fun i => row[i]?)

/-- A pandas Series obtained as `df.iloc[0]`: the row's cells indexed by
the frame's column names. -/
structure Row where
  cols : List String
  cells : List String
deriving Repr, DecidableEq

/-- `df.iloc[0]` (only ever called on a non-empty frame). -/
def DataFrame.iloc0 (df : DataFrame) : Row :=
  ⟨df.cols, df.rows.headD []⟩

/-- `series.get(c)`: the cell when the label exists, Python `None`
(here `none`) otherwise. -/
def Row.get (r : Row) (c : String) : Option String :=
  cellOf r.cols r.cells c

/-- `series.get(c, d)`: the cell when the label exists, the default `d`
otherwise. -/
def Row.getD (r : Row) (c d : String) : String :=
  (r.get c).getD d

/-- `series[c]`: raising label access — `KeyError` when the label is
absent.  (Frames from `execute_query` are rectangular, so a label that
exists always has a cell; a ragged row defaults to "".) -/
def Row.item (r : Row) (c : String) : Res String :=
  if r.cols.contains c then .ok ((r.get c).getD "") else .raised (.keyError c)

/-- `df[df[c] == v]`: boolean-mask filtering.  Raises `KeyError` when
the column is absent, otherwise keeps the rows whose `c` cell equals
`v` (Python `==` on a `None`-valued comparison is `False`). -/
def DataFrame.filterEq (df : DataFrame) (c v : String) : Res DataFrame :=
  if df.cols.contains c then
    .ok ⟨df.cols, df.rows.filter (fun row => cellOf df.cols row c == some v)⟩
  else .raised (.keyError c)

/-- Python f-string rendering of a `series.get` result: the string
itself, or "None" for an absent label. -/
def pyShow (v : Option String) : String :=
  match v with
  | some s => s
  | none => "None"

/-- Python f-string rendering of a bool (`True` / `False`). -/
def pyBool (b : Bool) : String :=
  if b then "True" else "False"

/-- One evaluated rule outcome, as the dict literals appended to
`findings["details"]`: the `value` and `remediation` keys are omitted by
some branches, hence `Option`. -/
structure Finding where
  category : String
  check : String
  status : String
  message : String
  value : Option String
  remediation : Option String
deriving Repr, DecidableEq

/-- `findings["summary"]`: the four aggregate counters. -/
structure Summary where
  total_checks : Nat
  passed : Nat
  failed : Nat
  warnings : Nat
deriving Repr, DecidableEq

/-- `findings`: summary counters plus the ordered `details` list. -/
structure FindingsReport where
  summary : Summary
  details : List Finding
deriving Repr, DecidableEq

/-- The `findings` literal initialized at lines 253-261: all counters 0,
no details. -/
def emptyReport : FindingsReport :=
  ⟨⟨0, 0, 0, 0⟩, []⟩

/-- `results`, the analyzer's input: a mapping from query name to
DataFrame (a Python dict, modelled as a first-match association list). -/
def ResultSetCollection : Type :=
  List (String × DataFrame)

instance : DecidableEq ResultSetCollection :=
  inferInstanceAs (DecidableEq (List (String × DataFrame)))

/-- `results[name]` / `name in results`: dict lookup. -/
def lookupQ (results : ResultSetCollection) (name : String) : Option DataFrame :=
  (List.find? (fun p => p.1 == name) results).map (fun p => p.2)

/-- Lines 267-287: the Archive Log Mode check on the first
`database_info` row. -/
def archiveLogCheck (db_info : Row) (r : FindingsReport) : FindingsReport :=
  let r := { r with summary.total_checks := r.summary.total_checks + 1 }
  if db_info.get "LOG_MODE" == some "ARCHIVELOG" then
    { r with
      summary.passed := r.summary.passed + 1,
      details := r.details ++
        [⟨"Database", "Archive Log Mode", "PASS",
          "Database is in ARCHIVELOG mode",
          db_info.get "LOG_MODE", none⟩] }
  else
    { r with
      summary.failed := r.summary.failed + 1,
      details := r.details ++
        [⟨"Database", "Archive Log Mode", "FAIL",
          "Database must be in ARCHIVELOG mode for CDC",
          db_info.get "LOG_MODE",
          some "Execute: ALTER DATABASE ARCHIVELOG;"⟩] }

/-- Lines 289-324: the Supplemental Logging check (three-way decision on
the two supplemental-logging flags, both read with default "NO"). -/
def suppLogCheck (db_info : Row) (r : FindingsReport) : FindingsReport :=
  let r := { r with summary.total_checks := r.summary.total_checks + 1 }
  let supp_log_min := db_info.getD "SUPPLEMENTAL_LOG_DATA_MIN" "NO"
  let supp_log_all := db_info.getD "SUPPLEMENTAL_LOG_DATA_ALL" "NO"
  if supp_log_all == "YES" then
    { r with
      summary.passed := r.summary.passed + 1,
      details := r.details ++
        [⟨"Database", "Supplemental Logging", "PASS",
          "Full supplemental logging (ALL COLUMNS) is enabled",
          some ("MIN: " ++ supp_log_min ++ ", ALL: " ++ supp_log_all),
          none⟩] }
  else if supp_log_min == "YES" then
    { r with
      summary.passed := r.summary.passed + 1,
      details := r.details ++
        [⟨"Database", "Supplemental Logging", "PASS",
          "Minimal supplemental logging is enabled (consider upgrading to ALL COLUMNS)",
          some ("MIN: " ++ supp_log_min ++ ", ALL: " ++ supp_log_all),
          some "Recommended: ALTER DATABASE ADD SUPPLEMENTAL LOG DATA (ALL) COLUMNS;"⟩] }
  else
    { r with
      summary.failed := r.summary.failed + 1,
      details := r.details ++
        [⟨"Database", "Supplemental Logging", "FAIL",
          "Supplemental logging must be enabled",
          some ("MIN: " ++ supp_log_min ++ ", ALL: " ++ supp_log_all),
          some "ALTER SESSION SET CONTAINER = CDB$ROOT;\nALTER DATABASE ADD SUPPLEMENTAL LOG DATA (ALL) COLUMNS;"⟩] }

/-- Lines 326-345: the Container Database check. -/
def cdbCheck (db_info : Row) (r : FindingsReport) : FindingsReport :=
  let r := { r with summary.total_checks := r.summary.total_checks + 1 }
  if db_info.get "CDB" == some "YES" then
    { r with
      summary.passed := r.summary.passed + 1,
      details := r.details ++
        [⟨"Database", "Container Database", "PASS",
          "Database is a Container Database (CDB)",
          db_info.get "CDB", none⟩] }
  else
    { r with
      summary.warnings := r.summary.warnings + 1,
      details := r.details ++
        [⟨"Database", "Container Database", "WARNING",
          "Database is not a CDB. Ensure proper configuration for non-CDB",
          db_info.get "CDB", none⟩] }

/-- Lines 263-345: the Database rule group — runs the three checks on
`database_info`'s first row iff the key is present and the frame is
non-empty. -/
def databaseChecks (results : ResultSetCollection) (r : FindingsReport) : FindingsReport :=
  match lookupQ results "database_info" with
  | some df =>
    if !df.isEmptyDf then
      let db_info := df.iloc0
      cdbCheck db_info (suppLogCheck db_info (archiveLogCheck db_info r))
    else r
  | none => r

/-- Lines 352-386: the body of the `for required_user in [...]` loop:
one Finding per required account.  The `users_df["USERNAME"]` mask and
the `user_info["ACCOUNT_STATUS"]` label access may raise `KeyError`. -/
def userCheck (users_df : DataFrame) (required_user : String)
    (r : FindingsReport) : Res FindingsReport :=
  let r := { r with summary.total_checks := r.summary.total_checks + 1 }
  match users_df.filterEq "USERNAME" required_user with
  | .raised e => .raised e
  | .ok user_rows =>
    if !user_rows.isEmptyDf then
      let user_info := user_rows.iloc0
      match user_info.item "ACCOUNT_STATUS" with
      | .raised e => .raised e
      | .ok status =>
        if status == "OPEN" then
          let is_common := user_info.getD "COMMON" "NO" == "YES"
          .ok { r with
            summary.passed := r.summary.passed + 1,
            details := r.details ++
              [⟨"Users", "User " ++ required_user, "PASS",
                "User " ++ required_user ++ " exists and is OPEN",
                some ("Status: " ++ status ++ ", Common: " ++ pyBool is_common
                  ++ ", Tablespace: " ++ user_info.getD "DEFAULT_TABLESPACE" "N/A"),
                none⟩] }
        else
          .ok { r with
            summary.failed := r.summary.failed + 1,
            details := r.details ++
              [⟨"Users", "User " ++ required_user, "FAIL",
                "User " ++ required_user ++ " is " ++ status ++ " (should be OPEN)",
                some ("Status: " ++ status),
                some ("ALTER USER " ++ required_user ++ " ACCOUNT UNLOCK;")⟩] }
    else
      .ok { r with
        summary.failed := r.summary.failed + 1,
        details := r.details ++
          [⟨"Users", "User " ++ required_user, "FAIL",
            "User " ++ required_user ++ " does not exist in CDB$ROOT",
            none,
            some ("ALTER SESSION SET CONTAINER = CDB$ROOT;\nCREATE USER "
              ++ required_user ++ " IDENTIFIED BY password CONTAINER=ALL;")⟩] }

/-- The `for` loop of line 351, iterating the fixed required-account
list; an exception in one iteration propagates (no later iteration
runs). -/
def usersLoop (users_df : DataFrame) (users : List String)
    (r : FindingsReport) : Res FindingsReport :=
  match users with
  | [] => .ok r
  | u :: rest =>
    match userCheck users_df u r with
    | .ok r1 => usersLoop users_df rest r1
    | .raised e => .raised e

/-- Lines 347-386: the Users rule group — runs the per-account loop iff
`users_check` is present and non-empty. -/
def usersChecks (results : ResultSetCollection) (r : FindingsReport) : Res FindingsReport :=
  match lookupQ results "users_check" with
  | some df =>
    if !df.isEmptyDf then
      usersLoop df ["C##XSTREAMADMIN", "C##CONNECTUSER"] r
    else .ok r
  | none => .ok r

/-- Lines 388-419: the XStream rule group — governed by mere presence of
the `xstream_outbound` key (`total_checks` is incremented before the
emptiness test, so an empty frame still yields one Finding). -/
def xstreamChecks (results : ResultSetCollection) (r : FindingsReport) : FindingsReport :=
  match lookupQ results "xstream_outbound" with
  | some df =>
    let r := { r with summary.total_checks := r.summary.total_checks + 1 }
    if !df.isEmptyDf then
      let xstream := df.iloc0
      if xstream.get "STATUS" == some "ENABLED"
          || xstream.get "STATUS" == some "ATTACHED" then
        { r with
          summary.passed := r.summary.passed + 1,
          details := r.details ++
            [⟨"XStream", "Outbound Server", "PASS",
              "XStream outbound server \x27" ++ pyShow (xstream.get "SERVER_NAME")
                ++ "\x27 is " ++ pyShow (xstream.get "STATUS"),
              some ("Connect User: " ++ pyShow (xstream.get "CONNECT_USER")
                ++ ", Queue: " ++ xstream.getD "QUEUE_NAME" "N/A"),
              none⟩] }
      else
        { r with
          summary.warnings := r.summary.warnings + 1,
          details := r.details ++
            [⟨"XStream", "Outbound Server", "WARNING",
              "XStream outbound server status is " ++ pyShow (xstream.get "STATUS"),
              some ("Server: " ++ pyShow (xstream.get "SERVER_NAME")),
              none⟩] }
    else
      { r with
        summary.failed := r.summary.failed + 1,
        details := r.details ++
          [⟨"XStream", "Outbound Server", "FAIL",
            "No XStream outbound server configured",
            none,
            some "Execute DBMS_XSTREAM_ADM.CREATE_OUTBOUND to create server"⟩] }
  | none => r

/-- `analyze_configuration(results)` (lines 251-421): initialize the
report, run the Database, Users and XStream rule groups in order, and
return the report — or the propagated exception. -/
def analyze_configuration (results : ResultSetCollection) : Res FindingsReport :=
  match usersChecks results (databaseChecks results emptyReport) with
  | .ok r => .ok (xstreamChecks results r)
  | .raised e => .raised e

/-- Sum of the three status counters of a report. -/
def sumPFW (r : FindingsReport) : Nat :=
  r.summary.passed + r.summary.failed + r.summary.warnings

/-- Remediation discipline of every Finding the analyzer creates: a
remediation is attached only to FAIL findings and to the one advisory
PASS (Supplemental Logging minimal-only). -/
def remConj (f : Finding) : Prop :=
  f.remediation.isSome = true →
    f.status = "FAIL" ∨ (f.status = "PASS" ∧ f.check = "Supplemental Logging")

/-- Decision table of the Archive Log Mode Finding. -/
def archiveFacts (row : Row) (f : Finding) : Prop :=
  f.category = "Database" ∧ f.check = "Archive Log Mode" ∧
  (row.get "LOG_MODE" = some "ARCHIVELOG" → f.status = "PASS" ∧ f.remediation = none) ∧
  (¬ row.get "LOG_MODE" = some "ARCHIVELOG" →
    f.status = "FAIL" ∧ f.remediation = some "Execute: ALTER DATABASE ARCHIVELOG;") ∧
  remConj f

/-- Decision table of the Supplemental Logging Finding. -/
def suppFacts (row : Row) (f : Finding) : Prop :=
  f.category = "Database" ∧ f.check = "Supplemental Logging" ∧
  (row.getD "SUPPLEMENTAL_LOG_DATA_ALL" "NO" = "YES" →
    f.status = "PASS" ∧ f.remediation = none) ∧
  (¬ row.getD "SUPPLEMENTAL_LOG_DATA_ALL" "NO" = "YES" →
    row.getD "SUPPLEMENTAL_LOG_DATA_MIN" "NO" = "YES" →
    f.status = "PASS" ∧
    f.remediation = some "Recommended: ALTER DATABASE ADD SUPPLEMENTAL LOG DATA (ALL) COLUMNS;") ∧
  (¬ row.getD "SUPPLEMENTAL_LOG_DATA_ALL" "NO" = "YES" →
    ¬ row.getD "SUPPLEMENTAL_LOG_DATA_MIN" "NO" = "YES" →
    f.status = "FAIL" ∧
    f.remediation = some "ALTER SESSION SET CONTAINER = CDB$ROOT;\nALTER DATABASE ADD SUPPLEMENTAL LOG DATA (ALL) COLUMNS;") ∧
  remConj f

/-- Decision table of the Container Database Finding. -/
def cdbFacts (row : Row) (f : Finding) : Prop :=
  f.category = "Database" ∧ f.check = "Container Database" ∧
  (row.get "CDB" = some "YES" → f.status = "PASS") ∧
  (¬ row.get "CDB" = some "YES" → f.status = "WARNING") ∧
  f.remediation = none

/-- Decision table of the XStream Outbound Server Finding. -/
def xsFacts (df : DataFrame) (f : Finding) : Prop :=
  f.category = "XStream" ∧ f.check = "Outbound Server" ∧
  (df.isEmptyDf = true →
    f.status = "FAIL" ∧
    f.remediation = some "Execute DBMS_XSTREAM_ADM.CREATE_OUTBOUND to create server") ∧
  (df.isEmptyDf = false →
    ((df.iloc0.get "STATUS" = some "ENABLED" ∨ df.iloc0.get "STATUS" = some "ATTACHED") →
      f.status = "PASS" ∧ f.remediation = none ∧
      f.value = some ("Connect User: " ++ pyShow (df.iloc0.get "CONNECT_USER")
        ++ ", Queue: " ++ df.iloc0.getD "QUEUE_NAME" "N/A")) ∧
    (¬ (df.iloc0.get "STATUS" = some "ENABLED" ∨ df.iloc0.get "STATUS" = some "ATTACHED") →
      f.status = "WARNING" ∧ f.remediation = none)) ∧
  remConj f

/-- The decision table of one required-account check, as a predicate on
the produced Finding: a matching row decides PASS/FAIL on its
ACCOUNT_STATUS cell, no matching row is FAIL with the CREATE USER
remediation. -/
def userFacts (df : DataFrame) (u : String) (f : Finding) : Prop :=
  f.category = "Users" ∧ f.check = "User " ++ u ∧
  (df.rows.filter (fun row => cellOf df.cols row "USERNAME" == some u) = [] →
    f.status = "FAIL" ∧
    f.remediation = some ("ALTER SESSION SET CONTAINER = CDB$ROOT;\nCREATE USER "
      ++ u ++ " IDENTIFIED BY password CONTAINER=ALL;")) ∧
  (∀ row0 rest,
    df.rows.filter (fun row => cellOf df.cols row "USERNAME" == some u) = row0 :: rest →
    ((cellOf df.cols row0 "ACCOUNT_STATUS").getD "" = "OPEN" →
      f.status = "PASS" ∧ f.remediation = none) ∧
    (¬ (cellOf df.cols row0 "ACCOUNT_STATUS").getD "" = "OPEN" →
      f.status = "FAIL" ∧ f.remediation = some ("ALTER USER " ++ u ++ " ACCOUNT UNLOCK;"))) ∧
  (f.remediation.isSome = true →
    f.status = "FAIL" ∨ (f.status = "PASS" ∧ f.check = "Supplemental Logging"))


/-! ### Sample inputs (shaped like the fixed catalog queries' frames) -/

/-- A `database_info` frame whose single row passes all three Database
checks. -/
def dbAllPassDF : DataFrame :=
  ⟨["DATABASE_NAME", "CDB", "LOG_MODE", "FORCE_LOGGING",
      "SUPPLEMENTAL_LOG_DATA_MIN", "SUPPLEMENTAL_LOG_DATA_ALL", "VERSION"],
    [["ORCL", "YES", "ARCHIVELOG", "YES", "YES", "YES", "Oracle 19c"]]⟩

/-- `dbAllPassDF` with every column name lower-cased. -/
def dbLowercaseDF : DataFrame :=
  ⟨["database_name", "cdb", "log_mode", "force_logging",
      "supplemental_log_data_min", "supplemental_log_data_all", "version"],
    [["ORCL", "YES", "ARCHIVELOG", "YES", "YES", "YES", "Oracle 19c"]]⟩

/-- A `database_info` frame with minimal supplemental logging only. -/
def dbMinOnlyDF : DataFrame :=
  ⟨["DATABASE_NAME", "CDB", "LOG_MODE", "FORCE_LOGGING",
      "SUPPLEMENTAL_LOG_DATA_MIN", "SUPPLEMENTAL_LOG_DATA_ALL", "VERSION"],
    [["ORCL", "YES", "ARCHIVELOG", "YES", "YES", "NO", "Oracle 19c"]]⟩

/-- A `database_info` frame for a non-CDB instance without archive
logging. -/
def dbNoCdbDF : DataFrame :=
  ⟨["DATABASE_NAME", "CDB", "LOG_MODE", "FORCE_LOGGING",
      "SUPPLEMENTAL_LOG_DATA_MIN", "SUPPLEMENTAL_LOG_DATA_ALL", "VERSION"],
    [["ORCL", "NO", "NOARCHIVELOG", "NO", "NO", "NO", "Oracle 19c"]]⟩

/-- A `users_check` frame with both required accounts OPEN. -/
def usersBothOpenDF : DataFrame :=
  ⟨["USERNAME", "ACCOUNT_STATUS", "COMMON", "DEFAULT_TABLESPACE"],
    [["C##CONNECTUSER", "OPEN", "YES", "CONNECTUSER_TBS"],
     ["C##XSTREAMADMIN", "OPEN", "YES", "XSTREAM_ADM_TBS"]]⟩

/-- A `users_check` frame with only the connect account, and LOCKED. -/
def usersMixedDF : DataFrame :=
  ⟨["USERNAME", "ACCOUNT_STATUS", "COMMON", "DEFAULT_TABLESPACE"],
    [["C##CONNECTUSER", "LOCKED", "YES", "CONNECTUSER_TBS"]]⟩

/-- A malformed non-empty `users_check` frame without a USERNAME or
ACCOUNT_STATUS column. -/
def usersNoUserColDF : DataFrame :=
  ⟨["FOO"], [["x"]]⟩

/-- Another malformed non-empty `users_check` frame (no USERNAME). -/
def usersNoBarColDF : DataFrame :=
  ⟨["BAR"], [["y"]]⟩

/-- An `xstream_outbound` frame with the key present but zero rows. -/
def xsEmptyDF : DataFrame :=
  ⟨["SERVER_NAME", "CONNECT_USER", "CAPTURE_USER", "QUEUE_OWNER",
      "QUEUE_NAME", "STATUS"], []⟩

/-- An `xstream_outbound` frame with one ENABLED server row. -/
def xsEnabledDF : DataFrame :=
  ⟨["SERVER_NAME", "CONNECT_USER", "CAPTURE_USER", "QUEUE_OWNER",
      "QUEUE_NAME", "STATUS"],
    [["XOUT", "C##CONNECTUSER", "C##XSTREAMADMIN", "C##XSTREAMADMIN",
      "XOUT_QUEUE", "ENABLED"]]⟩

/-- The report the analyzer produces for a collection holding only an
empty `xstream_outbound` frame. -/
def xsOnlyFailReport : FindingsReport :=
  ⟨⟨1, 0, 1, 0⟩,
    [⟨"XStream", "Outbound Server", "FAIL",
      "No XStream outbound server configured", none,
      some "Execute DBMS_XSTREAM_ADM.CREATE_OUTBOUND to create server"⟩]⟩

/-- The single Finding of `xsOnlyFailReport`. -/
def xsFailFinding : Finding :=
  ⟨"XStream", "Outbound Server", "FAIL",
    "No XStream outbound server configured", none,
    some "Execute DBMS_XSTREAM_ADM.CREATE_OUTBOUND to create server"⟩

/-- Observer: does a (non-raising) analysis result contain a PASS
Finding that carries a remediation? -/
def hasPassWithRemediation (res : Res FindingsReport) : Bool :=
  match res with
  | .ok r => r.details.any (fun f => f.status == "PASS" && f.remediation.isSome)
  | .raised _ => false

/-- Observer: the summary of a non-raising analysis result. -/
def summaryOf (res : Res FindingsReport) : Option Summary :=
  match res with
  | .ok r => some r.summary
  | .raised _ => none


/-! ### Proof infrastructure: per-check characterizations -/

/-- A successful analysis decomposes into the three rule groups run in
order on the initial empty report. -/
lemma analyze_ok_elim {results : ResultSetCollection} {r : FindingsReport}
    (h : analyze_configuration results = .ok r) :
    ∃ r2, usersChecks results (databaseChecks results emptyReport) = .ok r2 ∧
      r = xstreamChecks results r2 := by
  unfold analyze_configuration at h
  cases hu : usersChecks results (databaseChecks results emptyReport) with
  | ok r2 =>
    rw [hu] at h
    injection h with h2
    exact ⟨r2, rfl, h2.symm⟩
  | raised e =>
    rw [hu] at h
    exact absurd h (by simp)

/-- The Archive Log Mode check appends exactly one Finding, bumps
`total_checks` and exactly one status counter, and decides PASS/FAIL on
the LOG_MODE field. -/
lemma archiveLogCheck_spec (row : Row) (r : FindingsReport) :
    ∃ f : Finding,
      (archiveLogCheck row r).details = r.details ++ [f] ∧
      (archiveLogCheck row r).summary.total_checks = r.summary.total_checks + 1 ∧
      sumPFW (archiveLogCheck row r) = sumPFW r + 1 ∧
      f.category = "Database" ∧ f.check = "Archive Log Mode" ∧
      (row.get "LOG_MODE" = some "ARCHIVELOG" →
        f.status = "PASS" ∧ f.remediation = none) ∧
      (¬ row.get "LOG_MODE" = some "ARCHIVELOG" →
        f.status = "FAIL" ∧ f.remediation = some "Execute: ALTER DATABASE ARCHIVELOG;") ∧
      (f.remediation.isSome = true →
        f.status = "FAIL" ∨ (f.status = "PASS" ∧ f.check = "Supplemental Logging")) := by
  by_cases h : row.get "LOG_MODE" = some "ARCHIVELOG"
  · refine ⟨⟨"Database", "Archive Log Mode", "PASS", "Database is in ARCHIVELOG mode",
        row.get "LOG_MODE", none⟩, ?_, ?_, ?_, rfl, rfl,
        fun _ => ⟨rfl, rfl⟩, fun hc => absurd h hc, by simp⟩
    · simp [archiveLogCheck, h]
    · simp [archiveLogCheck, h]
    · simp [archiveLogCheck, h, sumPFW]; omega
  · refine ⟨⟨"Database", "Archive Log Mode", "FAIL", "Database must be in ARCHIVELOG mode for CDC",
        row.get "LOG_MODE", some "Execute: ALTER DATABASE ARCHIVELOG;"⟩, ?_, ?_, ?_, rfl, rfl,
        fun hc => absurd hc h, fun _ => ⟨rfl, rfl⟩, fun _ => Or.inl rfl⟩
    · simp [archiveLogCheck, h]
    · simp [archiveLogCheck, h]
    · simp [archiveLogCheck, h, sumPFW]; omega

/-- The Supplemental Logging check appends exactly one Finding and
realizes the three-way decision on the two flags (read with default
"NO"): ALL → PASS/no remediation; minimal only → PASS with advisory
remediation; neither → FAIL with remediation. -/
lemma suppLogCheck_spec (row : Row) (r : FindingsReport) :
    ∃ f : Finding,
      (suppLogCheck row r).details = r.details ++ [f] ∧
      (suppLogCheck row r).summary.total_checks = r.summary.total_checks + 1 ∧
      sumPFW (suppLogCheck row r) = sumPFW r + 1 ∧
      f.category = "Database" ∧ f.check = "Supplemental Logging" ∧
      (row.getD "SUPPLEMENTAL_LOG_DATA_ALL" "NO" = "YES" →
        f.status = "PASS" ∧ f.remediation = none) ∧
      (¬ row.getD "SUPPLEMENTAL_LOG_DATA_ALL" "NO" = "YES" →
        row.getD "SUPPLEMENTAL_LOG_DATA_MIN" "NO" = "YES" →
        f.status = "PASS" ∧
        f.remediation = some "Recommended: ALTER DATABASE ADD SUPPLEMENTAL LOG DATA (ALL) COLUMNS;") ∧
      (¬ row.getD "SUPPLEMENTAL_LOG_DATA_ALL" "NO" = "YES" →
        ¬ row.getD "SUPPLEMENTAL_LOG_DATA_MIN" "NO" = "YES" →
        f.status = "FAIL" ∧
        f.remediation = some "ALTER SESSION SET CONTAINER = CDB$ROOT;\nALTER DATABASE ADD SUPPLEMENTAL LOG DATA (ALL) COLUMNS;") ∧
      (f.remediation.isSome = true →
        f.status = "FAIL" ∨ (f.status = "PASS" ∧ f.check = "Supplemental Logging")) := by
  by_cases hall : row.getD "SUPPLEMENTAL_LOG_DATA_ALL" "NO" = "YES"
  · refine ⟨⟨"Database", "Supplemental Logging", "PASS",
        "Full supplemental logging (ALL COLUMNS) is enabled",
        some ("MIN: " ++ row.getD "SUPPLEMENTAL_LOG_DATA_MIN" "NO"
          ++ ", ALL: " ++ row.getD "SUPPLEMENTAL_LOG_DATA_ALL" "NO"),
        none⟩, ?_, ?_, ?_, rfl, rfl,
        fun _ => ⟨rfl, rfl⟩, fun hc => absurd hall hc, fun hc => absurd hall hc, by simp⟩
    · simp [suppLogCheck, hall]
    · simp [suppLogCheck, hall]
    · simp [suppLogCheck, hall, sumPFW]; omega
  · by_cases hmin : row.getD "SUPPLEMENTAL_LOG_DATA_MIN" "NO" = "YES"
    · refine ⟨⟨"Database", "Supplemental Logging", "PASS",
          "Minimal supplemental logging is enabled (consider upgrading to ALL COLUMNS)",
          some ("MIN: " ++ row.getD "SUPPLEMENTAL_LOG_DATA_MIN" "NO"
            ++ ", ALL: " ++ row.getD "SUPPLEMENTAL_LOG_DATA_ALL" "NO"),
          some "Recommended: ALTER DATABASE ADD SUPPLEMENTAL LOG DATA (ALL) COLUMNS;"⟩,
          ?_, ?_, ?_, rfl, rfl,
          fun hc => absurd hc hall, fun _ _ => ⟨rfl, rfl⟩, fun _ hc => absurd hmin hc,
          fun _ => Or.inr ⟨rfl, rfl⟩⟩
      · simp [suppLogCheck, hall, hmin]
      · simp [suppLogCheck, hall, hmin]
      · simp [suppLogCheck, hall, hmin, sumPFW]; omega
    · refine ⟨⟨"Database", "Supplemental Logging", "FAIL",
          "Supplemental logging must be enabled",
          some ("MIN: " ++ row.getD "SUPPLEMENTAL_LOG_DATA_MIN" "NO"
            ++ ", ALL: " ++ row.getD "SUPPLEMENTAL_LOG_DATA_ALL" "NO"),
          some "ALTER SESSION SET CONTAINER = CDB$ROOT;\nALTER DATABASE ADD SUPPLEMENTAL LOG DATA (ALL) COLUMNS;"⟩,
          ?_, ?_, ?_, rfl, rfl,
          fun hc => absurd hc hall, fun _ hc => absurd hc hmin, fun _ _ => ⟨rfl, rfl⟩,
          fun _ => Or.inl rfl⟩
      · simp [suppLogCheck, hall, hmin]
      · simp [suppLogCheck, hall, hmin]
      · simp [suppLogCheck, hall, hmin, sumPFW]; omega

/-- The Container Database check appends exactly one Finding: PASS on
CDB = "YES", otherwise WARNING; no remediation either way. -/
lemma cdbCheck_spec (row : Row) (r : FindingsReport) :
    ∃ f : Finding,
      (cdbCheck row r).details = r.details ++ [f] ∧
      (cdbCheck row r).summary.total_checks = r.summary.total_checks + 1 ∧
      sumPFW (cdbCheck row r) = sumPFW r + 1 ∧
      f.category = "Database" ∧ f.check = "Container Database" ∧
      (row.get "CDB" = some "YES" → f.status = "PASS") ∧
      (¬ row.get "CDB" = some "YES" → f.status = "WARNING") ∧
      f.remediation = none := by
  by_cases h : row.get "CDB" = some "YES"
  · refine ⟨⟨"Database", "Container Database", "PASS",
        "Database is a Container Database (CDB)", row.get "CDB", none⟩,
        ?_, ?_, ?_, rfl, rfl, fun _ => rfl, fun hc => absurd h hc, rfl⟩
    · simp [cdbCheck, h]
    · simp [cdbCheck, h]
    · simp [cdbCheck, h, sumPFW]; omega
  · refine ⟨⟨"Database", "Container Database", "WARNING",
        "Database is not a CDB. Ensure proper configuration for non-CDB", row.get "CDB", none⟩,
        ?_, ?_, ?_, rfl, rfl, fun hc => absurd hc h, fun _ => rfl, rfl⟩
    · simp [cdbCheck, h]
    · simp [cdbCheck, h]
    · simp [cdbCheck, h, sumPFW]; omega

/-- With the `xstream_outbound` key absent, the XStream group does
nothing. -/
lemma xstreamChecks_skip {results : ResultSetCollection} (r : FindingsReport)
    (h : lookupQ results "xstream_outbound" = none) :
    xstreamChecks results r = r := by
  simp [xstreamChecks, h]

/-- With the `xstream_outbound` key present (even over an empty frame),
the XStream group appends exactly one Finding: FAIL with remediation on
an empty frame; PASS on first-row status ENABLED/ATTACHED (value
reporting connect-user and queue); WARNING on any other status. -/
lemma xstreamChecks_spec {results : ResultSetCollection} (r : FindingsReport)
    {df : DataFrame} (h : lookupQ results "xstream_outbound" = some df) :
    ∃ f : Finding,
      (xstreamChecks results r).details = r.details ++ [f] ∧
      (xstreamChecks results r).summary.total_checks = r.summary.total_checks + 1 ∧
      sumPFW (xstreamChecks results r) = sumPFW r + 1 ∧
      f.category = "XStream" ∧ f.check = "Outbound Server" ∧
      (df.isEmptyDf = true →
        f.status = "FAIL" ∧
        f.remediation = some "Execute DBMS_XSTREAM_ADM.CREATE_OUTBOUND to create server") ∧
      (df.isEmptyDf = false →
        ((df.iloc0.get "STATUS" = some "ENABLED" ∨ df.iloc0.get "STATUS" = some "ATTACHED") →
          f.status = "PASS" ∧ f.remediation = none ∧
          f.value = some ("Connect User: " ++ pyShow (df.iloc0.get "CONNECT_USER")
            ++ ", Queue: " ++ df.iloc0.getD "QUEUE_NAME" "N/A")) ∧
        (¬ (df.iloc0.get "STATUS" = some "ENABLED" ∨ df.iloc0.get "STATUS" = some "ATTACHED") →
          f.status = "WARNING" ∧ f.remediation = none)) ∧
      (f.remediation.isSome = true →
        f.status = "FAIL" ∨ (f.status = "PASS" ∧ f.check = "Supplemental Logging")) := by
  cases he : df.isEmptyDf with
  | true =>
    refine ⟨⟨"XStream", "Outbound Server", "FAIL",
        "No XStream outbound server configured", none,
        some "Execute DBMS_XSTREAM_ADM.CREATE_OUTBOUND to create server"⟩,
        ?_, ?_, ?_, rfl, rfl, fun _ => ⟨rfl, rfl⟩,
        fun hc => by simp [he] at hc, fun _ => Or.inl rfl⟩
    · simp [xstreamChecks, h, he]
    · simp [xstreamChecks, h, he]
    · simp [xstreamChecks, h, he, sumPFW]; omega
  | false =>
    by_cases hst : df.iloc0.get "STATUS" = some "ENABLED" ∨ df.iloc0.get "STATUS" = some "ATTACHED"
    · refine ⟨⟨"XStream", "Outbound Server", "PASS",
          "XStream outbound server \x27" ++ pyShow (df.iloc0.get "SERVER_NAME")
            ++ "\x27 is " ++ pyShow (df.iloc0.get "STATUS"),
          some ("Connect User: " ++ pyShow (df.iloc0.get "CONNECT_USER")
            ++ ", Queue: " ++ df.iloc0.getD "QUEUE_NAME" "N/A"),
          none⟩,
          ?_, ?_, ?_, rfl, rfl, fun hc => by simp [he] at hc,
          fun _ => ⟨fun _ => ⟨rfl, rfl, rfl⟩, fun hc => absurd hst hc⟩, by simp⟩
      · rcases hst with h1 | h1 <;> simp [xstreamChecks, h, he, h1]
      · rcases hst with h1 | h1 <;> simp [xstreamChecks, h, he, h1]
      · rcases hst with h1 | h1 <;> · simp [xstreamChecks, h, he, h1, sumPFW]; omega
    · obtain ⟨hn1, hn2⟩ := not_or.mp hst
      refine ⟨⟨"XStream", "Outbound Server", "WARNING",
          "XStream outbound server status is " ++ pyShow (df.iloc0.get "STATUS"),
          some ("Server: " ++ pyShow (df.iloc0.get "SERVER_NAME")),
          none⟩,
          ?_, ?_, ?_, rfl, rfl, fun hc => by simp [he] at hc,
          fun _ => ⟨fun hc => absurd hc hst, fun _ => ⟨rfl, rfl⟩⟩, by simp⟩
      · simp [xstreamChecks, h, he, hn1, hn2]
      · simp [xstreamChecks, h, he, hn1, hn2]
      · simp [xstreamChecks, h, he, hn1, hn2, sumPFW]; omega

/-- A list containing an element is not empty. -/
lemma isEmpty_false_of_contains {l : List String} {a : String}
    (h : l.contains a = true) : l.isEmpty = false := by
  cases l with
  | nil => simp at h
  | cons x xs => rfl

/-- `userCheck` on a frame without a USERNAME column: the boolean-mask
filter raises `KeyError`. -/
lemma userCheck_eq_raiseU {df : DataFrame} {u : String} (r : FindingsReport)
    (hU : df.cols.contains "USERNAME" = false) :
    userCheck df u r = .raised (.keyError "USERNAME") := by
  have hUm : ¬ ("USERNAME" ∈ df.cols) := by simpa using hU
  simp [userCheck, DataFrame.filterEq, hUm]

/-- `userCheck` when no row matches the required account: FAIL with the
CREATE USER remediation. -/
lemma userCheck_eq_missing {df : DataFrame} {u : String} (r : FindingsReport)
    (hU : df.cols.contains "USERNAME" = true)
    (hm : df.rows.filter (fun row => cellOf df.cols row "USERNAME" == some u) = []) :
    userCheck df u r = .ok
      { r with
        summary.total_checks := r.summary.total_checks + 1,
        summary.failed := r.summary.failed + 1,
        details := r.details ++
          [⟨"Users", "User " ++ u, "FAIL",
            "User " ++ u ++ " does not exist in CDB$ROOT",
            none,
            some ("ALTER SESSION SET CONTAINER = CDB$ROOT;\nCREATE USER "
              ++ u ++ " IDENTIFIED BY password CONTAINER=ALL;")⟩] } := by
  have hUm : "USERNAME" ∈ df.cols := by simpa using hU
  simp [userCheck, DataFrame.filterEq, hUm, hm, DataFrame.isEmptyDf]

/-- `userCheck` when a row matches but the frame has no ACCOUNT_STATUS
column: the label access raises `KeyError`. -/
lemma userCheck_eq_raiseA {df : DataFrame} {u : String} {row0 : List String}
    {rest : List (List String)} (r : FindingsReport)
    (hU : df.cols.contains "USERNAME" = true)
    (hm : df.rows.filter (fun row => cellOf df.cols row "USERNAME" == some u) = row0 :: rest)
    (hA : df.cols.contains "ACCOUNT_STATUS" = false) :
    userCheck df u r = .raised (.keyError "ACCOUNT_STATUS") := by
  have hUm : "USERNAME" ∈ df.cols := by simpa using hU
  have hAm : ¬ ("ACCOUNT_STATUS" ∈ df.cols) := by simpa using hA
  have hcne : ¬ df.cols = [] := List.ne_nil_of_mem hUm
  simp [userCheck, DataFrame.filterEq, hUm, hm, DataFrame.isEmptyDf, hcne,
    DataFrame.iloc0, Row.item, hAm]

/-- `userCheck` when the first matching row's status is OPEN: PASS. -/
lemma userCheck_eq_open {df : DataFrame} {u : String} {row0 : List String}
    {rest : List (List String)} (r : FindingsReport)
    (hU : df.cols.contains "USERNAME" = true)
    (hm : df.rows.filter (fun row => cellOf df.cols row "USERNAME" == some u) = row0 :: rest)
    (hA : df.cols.contains "ACCOUNT_STATUS" = true)
    (hOpen : (cellOf df.cols row0 "ACCOUNT_STATUS").getD "" = "OPEN") :
    userCheck df u r = .ok
      { r with
        summary.total_checks := r.summary.total_checks + 1,
        summary.passed := r.summary.passed + 1,
        details := r.details ++
          [⟨"Users", "User " ++ u, "PASS",
            "User " ++ u ++ " exists and is OPEN",
            some ("Status: " ++ (cellOf df.cols row0 "ACCOUNT_STATUS").getD ""
              ++ ", Common: " ++ pyBool ((cellOf df.cols row0 "COMMON").getD "NO" == "YES")
              ++ ", Tablespace: " ++ (cellOf df.cols row0 "DEFAULT_TABLESPACE").getD "N/A"),
            none⟩] } := by
  have hUm : "USERNAME" ∈ df.cols := by simpa using hU
  have hAm : "ACCOUNT_STATUS" ∈ df.cols := by simpa using hA
  have hcne : ¬ df.cols = [] := List.ne_nil_of_mem hUm
  simp [userCheck, DataFrame.filterEq, hUm, hm, DataFrame.isEmptyDf, hcne,
    DataFrame.iloc0, Row.item, hAm, Row.get, Row.getD, hOpen]

/-- `userCheck` when the first matching row's status is not OPEN: FAIL
with the unlock remediation. -/
lemma userCheck_eq_locked {df : DataFrame} {u : String} {row0 : List String}
    {rest : List (List String)} (r : FindingsReport)
    (hU : df.cols.contains "USERNAME" = true)
    (hm : df.rows.filter (fun row => cellOf df.cols row "USERNAME" == some u) = row0 :: rest)
    (hA : df.cols.contains "ACCOUNT_STATUS" = true)
    (hOpen : ¬ (cellOf df.cols row0 "ACCOUNT_STATUS").getD "" = "OPEN") :
    userCheck df u r = .ok
      { r with
        summary.total_checks := r.summary.total_checks + 1,
        summary.failed := r.summary.failed + 1,
        details := r.details ++
          [⟨"Users", "User " ++ u, "FAIL",
            "User " ++ u ++ " is " ++ (cellOf df.cols row0 "ACCOUNT_STATUS").getD ""
              ++ " (should be OPEN)",
            some ("Status: " ++ (cellOf df.cols row0 "ACCOUNT_STATUS").getD ""),
            some ("ALTER USER " ++ u ++ " ACCOUNT UNLOCK;")⟩] } := by
  have hUm : "USERNAME" ∈ df.cols := by simpa using hU
  have hAm : "ACCOUNT_STATUS" ∈ df.cols := by simpa using hA
  have hcne : ¬ df.cols = [] := List.ne_nil_of_mem hUm
  simp [userCheck, DataFrame.filterEq, hUm, hm, DataFrame.isEmptyDf, hcne,
    DataFrame.iloc0, Row.item, hAm, Row.get, Row.getD, hOpen]

/-- A successful `userCheck` appends exactly one Finding satisfying the
decision table and bumps `total_checks` and one status counter. -/
lemma userCheck_ok_spec {df : DataFrame} {u : String} {r r' : FindingsReport}
    (h : userCheck df u r = .ok r') :
    ∃ f : Finding,
      r'.details = r.details ++ [f] ∧
      r'.summary.total_checks = r.summary.total_checks + 1 ∧
      sumPFW r' = sumPFW r + 1 ∧
      userFacts df u f := by
  cases hU : df.cols.contains "USERNAME" with
  | false =>
    rw [userCheck_eq_raiseU r hU] at h
    exact absurd h (by simp)
  | true =>
    cases hm : df.rows.filter (fun row => cellOf df.cols row "USERNAME" == some u) with
    | nil =>
      rw [userCheck_eq_missing r hU hm] at h
      injection h with h
      subst h
      refine ⟨⟨"Users", "User " ++ u, "FAIL",
          "User " ++ u ++ " does not exist in CDB$ROOT", none,
          some ("ALTER SESSION SET CONTAINER = CDB$ROOT;\nCREATE USER "
            ++ u ++ " IDENTIFIED BY password CONTAINER=ALL;")⟩,
        by simp, by simp, by simp [sumPFW]; omega,
        rfl, rfl, fun _ => ⟨rfl, rfl⟩,
        fun row0 rest hcons => by rw [hm] at hcons; simp at hcons,
        fun _ => Or.inl rfl⟩
    | cons row0 rest =>
      cases hA : df.cols.contains "ACCOUNT_STATUS" with
      | false =>
        rw [userCheck_eq_raiseA r hU hm hA] at h
        exact absurd h (by simp)
      | true =>
        by_cases hOpen : (cellOf df.cols row0 "ACCOUNT_STATUS").getD "" = "OPEN"
        · rw [userCheck_eq_open r hU hm hA hOpen] at h
          injection h with h
          subst h
          refine ⟨⟨"Users", "User " ++ u, "PASS",
              "User " ++ u ++ " exists and is OPEN",
              some ("Status: " ++ (cellOf df.cols row0 "ACCOUNT_STATUS").getD ""
                ++ ", Common: " ++ pyBool ((cellOf df.cols row0 "COMMON").getD "NO" == "YES")
                ++ ", Tablespace: " ++ (cellOf df.cols row0 "DEFAULT_TABLESPACE").getD "N/A"),
              none⟩,
            by simp, by simp, by simp [sumPFW]; omega,
            rfl, rfl, fun hc => by rw [hm] at hc; simp at hc,
            fun row0' rest' hcons => ?_, by simp⟩
          rw [hm] at hcons
          injection hcons with h1 h2
          subst h1
          exact ⟨fun _ => ⟨rfl, rfl⟩, fun hc => absurd hOpen hc⟩
        · rw [userCheck_eq_locked r hU hm hA hOpen] at h
          injection h with h
          subst h
          refine ⟨⟨"Users", "User " ++ u, "FAIL",
              "User " ++ u ++ " is " ++ (cellOf df.cols row0 "ACCOUNT_STATUS").getD ""
                ++ " (should be OPEN)",
              some ("Status: " ++ (cellOf df.cols row0 "ACCOUNT_STATUS").getD ""),
              some ("ALTER USER " ++ u ++ " ACCOUNT UNLOCK;")⟩,
            by simp, by simp, by simp [sumPFW]; omega,
            rfl, rfl, fun hc => by rw [hm] at hc; simp at hc,
            fun row0' rest' hcons => ?_, fun _ => Or.inl rfl⟩
          rw [hm] at hcons
          injection hcons with h1 h2
          subst h1
          exact ⟨fun hc => absurd hc hOpen, fun _ => ⟨rfl, rfl⟩⟩

/-- With USERNAME and ACCOUNT_STATUS columns present, `userCheck` never
raises. -/
lemma userCheck_total {df : DataFrame} {u : String} (r : FindingsReport)
    (hU : df.cols.contains "USERNAME" = true)
    (hA : df.cols.contains "ACCOUNT_STATUS" = true) :
    ∃ r', userCheck df u r = .ok r' := by
  cases hm : df.rows.filter (fun row => cellOf df.cols row "USERNAME" == some u) with
  | nil => exact ⟨_, userCheck_eq_missing r hU hm⟩
  | cons row0 rest =>
    by_cases hOpen : (cellOf df.cols row0 "ACCOUNT_STATUS").getD "" = "OPEN"
    · exact ⟨_, userCheck_eq_open r hU hm hA hOpen⟩
    · exact ⟨_, userCheck_eq_locked r hU hm hA hOpen⟩

/-- A successful two-account loop decomposes into two successful
account checks in order. -/
lemma usersLoop2_ok {df : DataFrame} {a b : String} {r r' : FindingsReport}
    (h : usersLoop df [a, b] r = .ok r') :
    ∃ r1, userCheck df a r = .ok r1 ∧ userCheck df b r1 = .ok r' := by
  unfold usersLoop at h
  cases h1 : userCheck df a r with
  | raised e => rw [h1] at h; simp at h
  | ok r1 =>
    rw [h1] at h
    unfold usersLoop at h
    cases h2 : userCheck df b r1 with
    | raised e => rw [h2] at h; simp at h
    | ok r2 =>
      rw [h2] at h
      unfold usersLoop at h
      injection h with h
      exact ⟨r1, rfl, by rw [h2, h]⟩

/-- The Database rule group appends its three Findings when
`database_info` is present and non-empty, and nothing otherwise;
counters move in lockstep. -/
lemma databaseChecks_spec (results : ResultSetCollection) (r : FindingsReport) :
    ∃ dbFs : List Finding,
      (databaseChecks results r).details = r.details ++ dbFs ∧
      (databaseChecks results r).summary.total_checks
        = r.summary.total_checks + dbFs.length ∧
      sumPFW (databaseChecks results r) = sumPFW r + dbFs.length ∧
      (∀ f ∈ dbFs, f.category = "Database" ∧
        (f.check = "Archive Log Mode" ∨ f.check = "Supplemental Logging"
          ∨ f.check = "Container Database") ∧ remConj f) ∧
      ((∀ df, lookupQ results "database_info" = some df → df.isEmptyDf = true) → dbFs = []) ∧
      (∀ df, lookupQ results "database_info" = some df → df.isEmptyDf = false →
        ∃ fA fS fC, dbFs = [fA, fS, fC] ∧
          archiveFacts df.iloc0 fA ∧ suppFacts df.iloc0 fS ∧ cdbFacts df.iloc0 fC) := by
  cases hq : lookupQ results "database_info" with
  | none =>
    refine ⟨[], by simp [databaseChecks, hq], by simp [databaseChecks, hq],
      by simp [databaseChecks, hq], by simp, fun _ => rfl,
      fun df hdf _ => absurd hdf (by simp)⟩
  | some df =>
    cases he : df.isEmptyDf with
    | true =>
      refine ⟨[], by simp [databaseChecks, hq, he], by simp [databaseChecks, hq, he],
        by simp [databaseChecks, hq, he], by simp, fun _ => rfl,
        fun df' hdf' hne' => ?_⟩
      injection hdf' with hdd
      subst hdd
      rw [he] at hne'
      exact Bool.noConfusion hne'
    | false =>
      obtain ⟨fA, hA1, hA2, hA3, hA4, hA5, hA6, hA7, hA8⟩ :=
        archiveLogCheck_spec df.iloc0 r
      obtain ⟨fS, hS1, hS2, hS3, hS4, hS5, hS6, hS7, hS8, hS9⟩ :=
        suppLogCheck_spec df.iloc0 (archiveLogCheck df.iloc0 r)
      obtain ⟨fC, hC1, hC2, hC3, hC4, hC5, hC6, hC7, hC8⟩ :=
        cdbCheck_spec df.iloc0 (suppLogCheck df.iloc0 (archiveLogCheck df.iloc0 r))
      have hrun : databaseChecks results r
          = cdbCheck df.iloc0 (suppLogCheck df.iloc0 (archiveLogCheck df.iloc0 r)) := by
        simp [databaseChecks, hq, he]
      refine ⟨[fA, fS, fC], ?_, ?_, ?_, ?_, fun hskip => ?_, fun df' hdf' hne' => ?_⟩
      · rw [hrun, hC1, hS1, hA1]; simp
      · rw [hrun, hC2, hS2, hA2]; simp
      · rw [hrun, hC3, hS3, hA3]; simp
      · intro f hf
        simp only [List.mem_cons, List.not_mem_nil, or_false] at hf
        rcases hf with rfl | rfl | rfl
        · exact ⟨hA4, Or.inl hA5, hA8⟩
        · exact ⟨hS4, Or.inr (Or.inl hS5), hS9⟩
        · exact ⟨hC4, Or.inr (Or.inr hC5), fun hc => by rw [hC8] at hc; simp at hc⟩
      · have := hskip df rfl
        rw [he] at this
        exact Bool.noConfusion this
      · injection hdf' with hdd
        subst hdd
        exact ⟨fA, fS, fC, rfl, ⟨hA4, hA5, hA6, hA7, hA8⟩,
          ⟨hS4, hS5, hS6, hS7, hS8, hS9⟩, ⟨hC4, hC5, hC6, hC7, hC8⟩⟩

/-- The Users rule group appends exactly one Finding per required
account (in the fixed order capture-admin, connect) when `users_check`
is present and non-empty, and nothing otherwise. -/
lemma usersChecks_ok_spec {results : ResultSetCollection} {r r' : FindingsReport}
    (h : usersChecks results r = .ok r') :
    ∃ usFs : List Finding,
      r'.details = r.details ++ usFs ∧
      r'.summary.total_checks = r.summary.total_checks + usFs.length ∧
      sumPFW r' = sumPFW r + usFs.length ∧
      (∀ f ∈ usFs, f.category = "Users" ∧
        (f.check = "User C##XSTREAMADMIN" ∨ f.check = "User C##CONNECTUSER") ∧ remConj f) ∧
      ((∀ df, lookupQ results "users_check" = some df → df.isEmptyDf = true) → usFs = []) ∧
      (∀ df, lookupQ results "users_check" = some df → df.isEmptyDf = false →
        ∃ f1 f2, usFs = [f1, f2] ∧
          userFacts df "C##XSTREAMADMIN" f1 ∧ userFacts df "C##CONNECTUSER" f2) := by
  cases hq : lookupQ results "users_check" with
  | none =>
    rw [usersChecks, hq] at h
    injection h with h
    subst h
    exact ⟨[], by simp, by simp, by simp, by simp, fun _ => rfl,
      fun df hdf _ => absurd hdf (by simp)⟩
  | some df =>
    cases he : df.isEmptyDf with
    | true =>
      have hred : usersChecks results r = .ok r := by
        rw [usersChecks, hq]; simp [he]
      rw [hred] at h
      injection h with h
      subst h
      refine ⟨[], by simp, by simp, by simp, by simp, fun _ => rfl,
        fun df' hdf' hne' => ?_⟩
      injection hdf' with hdd
      subst hdd
      rw [he] at hne'
      exact Bool.noConfusion hne'
    | false =>
      have hred : usersChecks results r
          = usersLoop df ["C##XSTREAMADMIN", "C##CONNECTUSER"] r := by
        rw [usersChecks, hq]; simp [he]
      rw [hred] at h
      obtain ⟨r1, hu1, hu2⟩ := usersLoop2_ok h
      obtain ⟨f1, h11, h12, h13, h14⟩ := userCheck_ok_spec hu1
      obtain ⟨f2, h21, h22, h23, h24⟩ := userCheck_ok_spec hu2
      have hck1 : f1.check = "User C##XSTREAMADMIN" := by
        rw [h14.2.1]; rfl
      have hck2 : f2.check = "User C##CONNECTUSER" := by
        rw [h24.2.1]; rfl
      refine ⟨[f1, f2], ?_, ?_, ?_, ?_, fun hskip => ?_, fun df' hdf' hne' => ?_⟩
      · rw [h21, h11]; simp
      · rw [h22, h12]; simp
      · rw [h23, h13]; simp
      · intro f hf
        simp only [List.mem_cons, List.not_mem_nil, or_false] at hf
        rcases hf with rfl | rfl
        · exact ⟨h14.1, Or.inl hck1, h14.2.2.2.2⟩
        · exact ⟨h24.1, Or.inr hck2, h24.2.2.2.2⟩
      · have := hskip df rfl
        rw [he] at this
        exact Bool.noConfusion this
      · injection hdf' with hdd
        subst hdd
        exact ⟨f1, f2, rfl, h14, h24⟩

/-- With the USERNAME and ACCOUNT_STATUS columns present on any
non-empty `users_check`, the Users rule group never raises. -/
lemma usersChecks_total (results : ResultSetCollection) (r : FindingsReport)
    (hwf : match lookupQ results "users_check" with
      | some df => df.isEmptyDf = true
          ∨ (df.cols.contains "USERNAME" = true ∧ df.cols.contains "ACCOUNT_STATUS" = true)
      | none => True) :
    ∃ r', usersChecks results r = .ok r' := by
  cases hq : lookupQ results "users_check" with
  | none => exact ⟨r, by rw [usersChecks, hq]⟩
  | some df =>
    rw [hq] at hwf
    cases he : df.isEmptyDf with
    | true =>
      refine ⟨r, ?_⟩
      rw [usersChecks, hq]
      simp [he]
    | false =>
      rcases hwf with hwf | ⟨hU, hA⟩
      · rw [he] at hwf; exact Bool.noConfusion hwf
      · obtain ⟨r1, hu1⟩ := @userCheck_total df "C##XSTREAMADMIN" r hU hA
        obtain ⟨r2, hu2⟩ := @userCheck_total df "C##CONNECTUSER" r1 hU hA
        have hred : usersChecks results r
            = usersLoop df ["C##XSTREAMADMIN", "C##CONNECTUSER"] r := by
          rw [usersChecks, hq]; simp [he]
        refine ⟨r2, ?_⟩
        rw [hred]
        unfold usersLoop
        rw [hu1]
        show usersLoop df ["C##CONNECTUSER"] r1 = Res.ok r2
        unfold usersLoop
        rw [hu2]
        rfl

/-- The XStream rule group appends exactly one Finding when
`xstream_outbound` is present (even over an empty frame), and nothing
when the key is absent. -/
lemma xstreamChecks_group_spec (results : ResultSetCollection) (r : FindingsReport) :
    ∃ xsFs : List Finding,
      (xstreamChecks results r).details = r.details ++ xsFs ∧
      (xstreamChecks results r).summary.total_checks
        = r.summary.total_checks + xsFs.length ∧
      sumPFW (xstreamChecks results r) = sumPFW r + xsFs.length ∧
      (∀ f ∈ xsFs, f.category = "XStream" ∧ f.check = "Outbound Server" ∧ remConj f) ∧
      (lookupQ results "xstream_outbound" = none → xsFs = []) ∧
      (∀ df, lookupQ results "xstream_outbound" = some df →
        ∃ fX, xsFs = [fX] ∧ xsFacts df fX) := by
  cases hq : lookupQ results "xstream_outbound" with
  | none =>
    rw [xstreamChecks_skip r hq]
    exact ⟨[], by simp, by simp, by simp, by simp, fun _ => rfl,
      fun df hdf => absurd hdf (by simp)⟩
  | some df =>
    obtain ⟨fX, hx1, hx2, hx3, hx4, hx5, hx6, hx7, hx8⟩ := xstreamChecks_spec r hq
    refine ⟨[fX], by simpa using hx1, by simpa using hx2, by simpa using hx3,
      ?_, fun hnone => absurd hnone (by simp), fun df' hdf' => ?_⟩
    · intro f hf
      simp only [List.mem_cons, List.not_mem_nil, or_false] at hf
      subst hf
      exact ⟨hx4, hx5, hx8⟩
    · injection hdf' with hdd
      subst hdd
      exact ⟨fX, rfl, hx4, hx5, hx6, hx7, hx8⟩

/-- The analyzer is total whenever any non-empty `users_check` frame has
the USERNAME and ACCOUNT_STATUS columns (the only raising accesses). -/
lemma analyze_total (results : ResultSetCollection)
    (hwf : match lookupQ results "users_check" with
      | some df => df.isEmptyDf = true
          ∨ (df.cols.contains "USERNAME" = true ∧ df.cols.contains "ACCOUNT_STATUS" = true)
      | none => True) :
    ∃ r, analyze_configuration results = .ok r := by
  obtain ⟨r2, h2⟩ := usersChecks_total results (databaseChecks results emptyReport) hwf
  refine ⟨xstreamChecks results r2, ?_⟩
  unfold analyze_configuration
  rw [h2]

/-- Master decomposition of a successful analysis: the details are the
Database, Users and XStream findings in order; the counters track the
findings in lockstep; each group contributes per its governing key. -/
lemma analyze_decomp {results : ResultSetCollection} {r : FindingsReport}
    (hok : analyze_configuration results = .ok r) :
    ∃ dbFs usFs xsFs : List Finding,
      r.details = dbFs ++ usFs ++ xsFs ∧
      r.summary.total_checks = r.details.length ∧
      sumPFW r = r.summary.total_checks ∧
      (∀ f ∈ dbFs, f.category = "Database" ∧
        (f.check = "Archive Log Mode" ∨ f.check = "Supplemental Logging"
          ∨ f.check = "Container Database") ∧ remConj f) ∧
      (∀ f ∈ usFs, f.category = "Users" ∧
        (f.check = "User C##XSTREAMADMIN" ∨ f.check = "User C##CONNECTUSER") ∧ remConj f) ∧
      (∀ f ∈ xsFs, f.category = "XStream" ∧ f.check = "Outbound Server" ∧ remConj f) ∧
      ((∀ df, lookupQ results "database_info" = some df → df.isEmptyDf = true) → dbFs = []) ∧
      (∀ df, lookupQ results "database_info" = some df → df.isEmptyDf = false →
        ∃ fA fS fC, dbFs = [fA, fS, fC] ∧
          archiveFacts df.iloc0 fA ∧ suppFacts df.iloc0 fS ∧ cdbFacts df.iloc0 fC) ∧
      ((∀ df, lookupQ results "users_check" = some df → df.isEmptyDf = true) → usFs = []) ∧
      (∀ df, lookupQ results "users_check" = some df → df.isEmptyDf = false →
        ∃ f1 f2, usFs = [f1, f2] ∧
          userFacts df "C##XSTREAMADMIN" f1 ∧ userFacts df "C##CONNECTUSER" f2) ∧
      (lookupQ results "xstream_outbound" = none → xsFs = []) ∧
      (∀ df, lookupQ results "xstream_outbound" = some df →
        ∃ fX, xsFs = [fX] ∧ xsFacts df fX) := by
  obtain ⟨r2, hu, hx⟩ := analyze_ok_elim hok
  obtain ⟨dbFs, hd1, hd2, hd3, hd4, hd5, hd6⟩ := databaseChecks_spec results emptyReport
  obtain ⟨usFs, hu1, hu2, hu3, hu4, hu5, hu6⟩ := usersChecks_ok_spec hu
  obtain ⟨xsFs, hx1, hx2, hx3, hx4, hx5, hx6⟩ := xstreamChecks_group_spec results r2
  subst hx
  refine ⟨dbFs, usFs, xsFs, ?_, ?_, ?_, hd4, hu4, hx4, hd5, hd6, hu5, hu6, hx5, hx6⟩
  · rw [hx1, hu1, hd1]
    simp [emptyReport]
  · rw [hx2, hu2, hd2, hx1, hu1, hd1]
    simp [emptyReport]
    omega
  · rw [hx3, hu3, hd3, hx2, hu2, hd2]
    simp [emptyReport, sumPFW]

/-- Findings of another category contribute no count for `cat`. -/
lemma countP_cat_zero {l : List Finding} {cat : String}
    (h : ∀ f ∈ l, ¬ f.category = cat) :
    l.countP (fun f => f.category == cat) = 0 := by
  rw [List.countP_eq_zero]
  intro f hf
  simp [h f hf]

/-- Findings with other check names are dropped by a check-name
filter. -/
lemma filter_check_nil {l : List Finding} {name : String}
    (h : ∀ f ∈ l, ¬ f.check = name) :
    l.filter (fun fd => fd.check == name) = [] := by
  rw [List.filter_eq_nil_iff]
  intro f hf
  simp [h f hf]

/-- Findings of other categories are dropped by a category filter. -/
lemma filter_cat_nil {l : List Finding} {cat : String}
    (h : ∀ f ∈ l, ¬ f.category = cat) :
    l.filter (fun fd => fd.category == cat) = [] := by
  rw [List.filter_eq_nil_iff]
  intro f hf
  simp [h f hf]

/-! ### Claims -/

/-- Claim C1: for every input ResultSetCollection on which the analyzer
returns a FindingsReport, `total_checks = passed + failed + warnings`
and `total_checks` equals the number of entries in `details` — the
counters move in lockstep with Finding creation (each rule-group lemma
above shows every branch appends exactly one Finding while bumping
`total_checks` and exactly one status counter). -/
theorem c1_aggregation_invariant (results : ResultSetCollection) (r : FindingsReport)
    (hok : analyze_configuration results = .ok r) :
    r.summary.total_checks
      = r.summary.passed + r.summary.failed + r.summary.warnings ∧
    r.summary.total_checks = r.details.length := by
  obtain ⟨dbFs, usFs, xsFs, h1, h2, h3, hrest⟩ := analyze_decomp hok
  constructor
  · rw [sumPFW] at h3
    omega
  · exact h2

/-- Witness for C1 at a concrete collection: one empty
`xstream_outbound` frame yields summary (1,0,1,0) over one Finding. -/
theorem c1_witness :
    xsOnlyFailReport.summary.total_checks
      = xsOnlyFailReport.summary.passed + xsOnlyFailReport.summary.failed
        + xsOnlyFailReport.summary.warnings ∧
    xsOnlyFailReport.summary.total_checks = xsOnlyFailReport.details.length :=
  c1_aggregation_invariant [("xstream_outbound", xsEmptyDF)] xsOnlyFailReport (by decide)

/-- Claim C2 is false as stated: on a collection whose non-empty
`users_check` frame has no USERNAME column, `analyze_configuration`
raises a `KeyError` (streamlit_app.py line 353 indexes
`users_df["USERNAME"]` with no fallback). -/
theorem c2_counterexample :
    analyze_configuration [("users_check", usersNoUserColDF)]
      = .raised (.keyError "USERNAME") := by
  decide

/-- Claim C2 (amended): the analyzer never raises provided any
non-empty `users_check` frame carries the USERNAME and ACCOUNT_STATUS
columns; all other field reads have defined fallbacks, and missing or
empty ResultSets map to skip/FAIL/WARNING branches. -/
theorem c2_amended (results : ResultSetCollection)
    (hwf : match lookupQ results "users_check" with
      | some df => df.isEmptyDf = true
          ∨ (df.cols.contains "USERNAME" = true ∧ df.cols.contains "ACCOUNT_STATUS" = true)
      | none => True) :
    ∃ r, analyze_configuration results = .ok r :=
  analyze_total results hwf

/-- Witness for C2 (amended) at a concrete collection. -/
theorem c2_witness :
    ∃ r, analyze_configuration [("users_check", usersBothOpenDF)] = .ok r :=
  c2_amended [("users_check", usersBothOpenDF)]
    (by exact Or.inr ⟨by decide, by decide⟩)

/-- Claim C3 is false as stated in its final clause: a collection
entirely missing the `database_info` key can still raise (here via a
malformed non-empty `users_check`), so "no exception" does not hold for
every such collection. -/
theorem c3_counterexample :
    analyze_configuration [("users_check", usersNoBarColDF)]
      = .raised (.keyError "USERNAME") := by
  decide

/-- Claim C3 (amended): when a group's governing key is absent or maps
to an empty frame, that group contributes no Finding of its category and
no counter (counters equal the number of Findings overall); a collection
missing `database_info` yields zero Database findings and no exception
provided any non-empty `users_check` has the USERNAME and ACCOUNT_STATUS
columns (C2's caveat). -/
theorem c3_amended (results : ResultSetCollection) (r : FindingsReport) :
    (analyze_configuration results = .ok r →
      ((∀ df, lookupQ results "database_info" = some df → df.isEmptyDf = true) →
        r.details.countP (fun f => f.category == "Database") = 0) ∧
      ((∀ df, lookupQ results "users_check" = some df → df.isEmptyDf = true) →
        r.details.countP (fun f => f.category == "Users") = 0) ∧
      r.summary.total_checks = r.details.length) ∧
    (lookupQ results "database_info" = none →
      (match lookupQ results "users_check" with
        | some df => df.isEmptyDf = true
            ∨ (df.cols.contains "USERNAME" = true ∧ df.cols.contains "ACCOUNT_STATUS" = true)
        | none => True) →
      ∃ r0, analyze_configuration results = .ok r0 ∧
        r0.details.countP (fun f => f.category == "Database") = 0) := by
  constructor
  · intro hok
    obtain ⟨dbFs, usFs, xsFs, h1, h2, h3, hdb, hus, hxs,
      hdskip, hdrun, huskip, hurun, hxskip, hxrun⟩ := analyze_decomp hok
    have cu : usFs.countP (fun f => f.category == "Database") = 0 :=
      countP_cat_zero (fun f hf => by rw [(hus f hf).1]; decide)
    have cx : xsFs.countP (fun f => f.category == "Database") = 0 :=
      countP_cat_zero (fun f hf => by rw [(hxs f hf).1]; decide)
    have cdbu : dbFs.countP (fun f => f.category == "Users") = 0 :=
      countP_cat_zero (fun f hf => by rw [(hdb f hf).1]; decide)
    have cxu : xsFs.countP (fun f => f.category == "Users") = 0 :=
      countP_cat_zero (fun f hf => by rw [(hxs f hf).1]; decide)
    refine ⟨fun hskip => ?_, fun hskip => ?_, h2⟩
    · rw [h1]
      simp [List.countP_append, hdskip hskip, cu, cx]
    · rw [h1]
      simp [List.countP_append, huskip hskip, cdbu, cxu]
  · intro hnone hwf
    obtain ⟨r0, hok0⟩ := analyze_total results hwf
    obtain ⟨dbFs, usFs, xsFs, h1, h2, h3, hdb, hus, hxs,
      hdskip, hdrun, hrest⟩ := analyze_decomp hok0
    have hdb0 : dbFs = [] :=
      hdskip (fun df hdf => by rw [hnone] at hdf; exact Option.noConfusion hdf)
    have cu : usFs.countP (fun f => f.category == "Database") = 0 :=
      countP_cat_zero (fun f hf => by rw [(hus f hf).1]; decide)
    have cx : xsFs.countP (fun f => f.category == "Database") = 0 :=
      countP_cat_zero (fun f hf => by rw [(hxs f hf).1]; decide)
    refine ⟨r0, hok0, ?_⟩
    rw [h1]
    simp [List.countP_append, hdb0, cu, cx]

/-- Witness for C3 (amended) at a concrete collection missing
`database_info`: analysis succeeds with zero Database findings. -/
theorem c3_witness :
    ∃ r0, analyze_configuration [("xstream_outbound", xsEmptyDF)] = .ok r0 ∧
      r0.details.countP (fun f => f.category == "Database") = 0 :=
  (c3_amended [("xstream_outbound", xsEmptyDF)] emptyReport).2 rfl (by exact trivial)

/-- With `database_info` present and non-empty, the report opens with
the three Database findings, followed only by Users/XStream findings
with their fixed check names. -/
lemma analyze_db_run {results : ResultSetCollection} {r : FindingsReport} {df : DataFrame}
    (hdf : lookupQ results "database_info" = some df) (hne : df.isEmptyDf = false)
    (hok : analyze_configuration results = .ok r) :
    ∃ fA fS fC usFs xsFs,
      r.details = fA :: fS :: fC :: (usFs ++ xsFs) ∧
      archiveFacts df.iloc0 fA ∧ suppFacts df.iloc0 fS ∧ cdbFacts df.iloc0 fC ∧
      (∀ f ∈ usFs, f.check = "User C##XSTREAMADMIN" ∨ f.check = "User C##CONNECTUSER") ∧
      (∀ f ∈ xsFs, f.check = "Outbound Server") := by
  obtain ⟨dbFs, usFs, xsFs, h1, _, _, hdb, hus, hxs, _, hdrun, _⟩ := analyze_decomp hok
  obtain ⟨fA, fS, fC, hdbeq, hAF, hSF, hCF⟩ := hdrun df hdf hne
  subst hdbeq
  exact ⟨fA, fS, fC, usFs, xsFs, by simpa using h1, hAF, hSF, hCF,
    fun f hf => (hus f hf).2.1, fun f hf => (hxs f hf).2.1⟩

/-- Claim C4: with `database_info` present and non-empty, the
Supplemental Logging Finding realizes the three-way decision: ALL
columns → PASS with no remediation; minimal only → PASS with the
advisory upgrade remediation; neither → FAIL with remediation. -/
theorem c4_supplemental_three_way (results : ResultSetCollection) (df : DataFrame)
    (r : FindingsReport)
    (hdf : lookupQ results "database_info" = some df) (hne : df.isEmptyDf = false)
    (hok : analyze_configuration results = .ok r) :
    ∃ f, r.details.filter (fun fd => fd.check == "Supplemental Logging") = [f] ∧
      f.category = "Database" ∧
      (df.iloc0.getD "SUPPLEMENTAL_LOG_DATA_ALL" "NO" = "YES" →
        f.status = "PASS" ∧ f.remediation = none) ∧
      (¬ df.iloc0.getD "SUPPLEMENTAL_LOG_DATA_ALL" "NO" = "YES" →
        df.iloc0.getD "SUPPLEMENTAL_LOG_DATA_MIN" "NO" = "YES" →
        f.status = "PASS" ∧
        f.remediation = some "Recommended: ALTER DATABASE ADD SUPPLEMENTAL LOG DATA (ALL) COLUMNS;") ∧
      (¬ df.iloc0.getD "SUPPLEMENTAL_LOG_DATA_ALL" "NO" = "YES" →
        ¬ df.iloc0.getD "SUPPLEMENTAL_LOG_DATA_MIN" "NO" = "YES" →
        f.status = "FAIL" ∧
        f.remediation = some "ALTER SESSION SET CONTAINER = CDB$ROOT;\nALTER DATABASE ADD SUPPLEMENTAL LOG DATA (ALL) COLUMNS;") := by
  obtain ⟨fA, fS, fC, usFs, xsFs, h1, hAF, hSF, hCF, hus, hxs⟩ :=
    analyze_db_run hdf hne hok
  have hu0 : usFs.filter (fun fd => fd.check == "Supplemental Logging") = [] :=
    filter_check_nil (fun f hf => by rcases hus f hf with hc | hc <;> rw [hc] <;> decide)
  have hx0 : xsFs.filter (fun fd => fd.check == "Supplemental Logging") = [] :=
    filter_check_nil (fun f hf => by rw [hxs f hf]; decide)
  have pA : (fA.check == "Supplemental Logging") = false := by rw [hAF.2.1]; decide
  have pS : (fS.check == "Supplemental Logging") = true := by rw [hSF.2.1]; decide
  have pC : (fC.check == "Supplemental Logging") = false := by rw [hCF.2.1]; decide
  refine ⟨fS, ?_, hSF.1, hSF.2.2.1, hSF.2.2.2.1, hSF.2.2.2.2.1⟩
  rw [h1]
  simp [List.filter_cons, List.filter_append, pA, pS, pC, hu0, hx0]

/-- Witness for C4 at a concrete `database_info` with minimal-only
supplemental logging: the Finding is PASS and carries the advisory
remediation. -/
theorem c4_witness :
    ∃ r f, analyze_configuration [("database_info", dbMinOnlyDF)] = .ok r ∧
      r.details.filter (fun fd => fd.check == "Supplemental Logging") = [f] ∧
      f.status = "PASS" ∧
      f.remediation = some "Recommended: ALTER DATABASE ADD SUPPLEMENTAL LOG DATA (ALL) COLUMNS;" := by
  obtain ⟨r, hok⟩ : ∃ r, analyze_configuration [("database_info", dbMinOnlyDF)] = .ok r :=
    ⟨_, rfl⟩
  obtain ⟨f, h1, h2, h3, h4, h5⟩ :=
    c4_supplemental_three_way [("database_info", dbMinOnlyDF)] dbMinOnlyDF r rfl rfl hok
  exact ⟨r, f, hok, h1, (h4 (by decide) (by decide)).1, (h4 (by decide) (by decide)).2⟩

/-- Claim C7: with `database_info` present and non-empty, the Archive
Log Mode Finding is PASS iff the LOG_MODE field equals "ARCHIVELOG",
and otherwise FAIL with the archive-log remediation present. -/
theorem c7_archive_log_mode (results : ResultSetCollection) (df : DataFrame)
    (r : FindingsReport)
    (hdf : lookupQ results "database_info" = some df) (hne : df.isEmptyDf = false)
    (hok : analyze_configuration results = .ok r) :
    ∃ f, r.details.filter (fun fd => fd.check == "Archive Log Mode") = [f] ∧
      (f.status = "PASS" ↔ df.iloc0.get "LOG_MODE" = some "ARCHIVELOG") ∧
      (¬ df.iloc0.get "LOG_MODE" = some "ARCHIVELOG" →
        f.status = "FAIL" ∧ f.remediation = some "Execute: ALTER DATABASE ARCHIVELOG;") := by
  obtain ⟨fA, fS, fC, usFs, xsFs, h1, hAF, hSF, hCF, hus, hxs⟩ :=
    analyze_db_run hdf hne hok
  have hu0 : usFs.filter (fun fd => fd.check == "Archive Log Mode") = [] :=
    filter_check_nil (fun f hf => by rcases hus f hf with hc | hc <;> rw [hc] <;> decide)
  have hx0 : xsFs.filter (fun fd => fd.check == "Archive Log Mode") = [] :=
    filter_check_nil (fun f hf => by rw [hxs f hf]; decide)
  have pA : (fA.check == "Archive Log Mode") = true := by rw [hAF.2.1]; decide
  have pS : (fS.check == "Archive Log Mode") = false := by rw [hSF.2.1]; decide
  have pC : (fC.check == "Archive Log Mode") = false := by rw [hCF.2.1]; decide
  refine ⟨fA, ?_, ⟨?_, fun hc => (hAF.2.2.1 hc).1⟩, hAF.2.2.2.1⟩
  · rw [h1]
    simp [List.filter_cons, List.filter_append, pA, pS, pC, hu0, hx0]
  · intro hp
    by_contra hc
    have hfail := (hAF.2.2.2.1 hc).1
    rw [hfail] at hp
    exact absurd hp (by decide)

/-- Witness for C7 at a concrete `database_info` in ARCHIVELOG mode. -/
theorem c7_witness :
    ∃ r f, analyze_configuration [("database_info", dbAllPassDF)] = .ok r ∧
      r.details.filter (fun fd => fd.check == "Archive Log Mode") = [f] ∧
      f.status = "PASS" := by
  obtain ⟨r, hok⟩ : ∃ r, analyze_configuration [("database_info", dbAllPassDF)] = .ok r :=
    ⟨_, rfl⟩
  obtain ⟨f, h1, h2, h3⟩ :=
    c7_archive_log_mode [("database_info", dbAllPassDF)] dbAllPassDF r rfl rfl hok
  exact ⟨r, f, hok, h1, h2.mpr (by decide)⟩

/-- Claim C8: with `database_info` present and non-empty, the Container
Database Finding is PASS iff the CDB flag equals "YES", otherwise
WARNING (never FAIL), with no remediation in either case. -/
theorem c8_container_database (results : ResultSetCollection) (df : DataFrame)
    (r : FindingsReport)
    (hdf : lookupQ results "database_info" = some df) (hne : df.isEmptyDf = false)
    (hok : analyze_configuration results = .ok r) :
    ∃ f, r.details.filter (fun fd => fd.check == "Container Database") = [f] ∧
      (f.status = "PASS" ↔ df.iloc0.get "CDB" = some "YES") ∧
      (¬ df.iloc0.get "CDB" = some "YES" → f.status = "WARNING") ∧
      f.remediation = none := by
  obtain ⟨fA, fS, fC, usFs, xsFs, h1, hAF, hSF, hCF, hus, hxs⟩ :=
    analyze_db_run hdf hne hok
  have hu0 : usFs.filter (fun fd => fd.check == "Container Database") = [] :=
    filter_check_nil (fun f hf => by rcases hus f hf with hc | hc <;> rw [hc] <;> decide)
  have hx0 : xsFs.filter (fun fd => fd.check == "Container Database") = [] :=
    filter_check_nil (fun f hf => by rw [hxs f hf]; decide)
  have pA : (fA.check == "Container Database") = false := by rw [hAF.2.1]; decide
  have pS : (fS.check == "Container Database") = false := by rw [hSF.2.1]; decide
  have pC : (fC.check == "Container Database") = true := by rw [hCF.2.1]; decide
  refine ⟨fC, ?_, ⟨?_, hCF.2.2.1⟩, hCF.2.2.2.1, hCF.2.2.2.2⟩
  · rw [h1]
    simp [List.filter_cons, List.filter_append, pA, pS, pC, hu0, hx0]
  · intro hp
    by_contra hc
    have hwarn := hCF.2.2.2.1 hc
    rw [hwarn] at hp
    exact absurd hp (by decide)

/-- Witness for C8 at a concrete non-CDB `database_info`: the Finding
is WARNING with no remediation. -/
theorem c8_witness :
    ∃ r f, analyze_configuration [("database_info", dbNoCdbDF)] = .ok r ∧
      r.details.filter (fun fd => fd.check == "Container Database") = [f] ∧
      f.status = "WARNING" ∧ f.remediation = none := by
  obtain ⟨r, hok⟩ : ∃ r, analyze_configuration [("database_info", dbNoCdbDF)] = .ok r :=
    ⟨_, rfl⟩
  obtain ⟨f, h1, h2, h3, h4⟩ :=
    c8_container_database [("database_info", dbNoCdbDF)] dbNoCdbDF r rfl rfl hok
  exact ⟨r, f, hok, h1, h3 (by decide), h4⟩

/-- Claim C5: with `users_check` present and non-empty (carrying the
USERNAME and ACCOUNT_STATUS fields the rule reads), each of the two
fixed required accounts independently yields exactly one Finding: PASS
iff a matching row's status is "OPEN"; FAIL with the unlock remediation
for any other status; FAIL with the create-as-common-user remediation
when no row matches. -/
theorem c5_users_accounts (results : ResultSetCollection) (df : DataFrame)
    (hdf : lookupQ results "users_check" = some df) (hne : df.isEmptyDf = false)
    (hU : df.cols.contains "USERNAME" = true)
    (hA : df.cols.contains "ACCOUNT_STATUS" = true) :
    ∃ r, analyze_configuration results = .ok r ∧
      ∀ u ∈ ["C##XSTREAMADMIN", "C##CONNECTUSER"],
        ∃ f, r.details.filter (fun fd => fd.check == "User " ++ u) = [f] ∧
          (df.rows.filter (fun row => cellOf df.cols row "USERNAME" == some u) = [] →
            f.status = "FAIL" ∧
            f.remediation = some ("ALTER SESSION SET CONTAINER = CDB$ROOT;\nCREATE USER "
              ++ u ++ " IDENTIFIED BY password CONTAINER=ALL;")) ∧
          (∀ row0 rest,
            df.rows.filter (fun row => cellOf df.cols row "USERNAME" == some u) = row0 :: rest →
            ((cellOf df.cols row0 "ACCOUNT_STATUS").getD "" = "OPEN" →
              f.status = "PASS" ∧ f.remediation = none) ∧
            (¬ (cellOf df.cols row0 "ACCOUNT_STATUS").getD "" = "OPEN" →
              f.status = "FAIL" ∧
              f.remediation = some ("ALTER USER " ++ u ++ " ACCOUNT UNLOCK;"))) := by
  have hwf : match lookupQ results "users_check" with
      | some df => df.isEmptyDf = true
          ∨ (df.cols.contains "USERNAME" = true ∧ df.cols.contains "ACCOUNT_STATUS" = true)
      | none => True := by
    rw [hdf]
    exact Or.inr ⟨hU, hA⟩
  obtain ⟨r, hok⟩ := analyze_total results hwf
  obtain ⟨dbFs, usFs, xsFs, h1, _, _, hdb, hus, hxs,
    _, _, _, hurun, _, _⟩ := analyze_decomp hok
  obtain ⟨f1, f2, huseq, hUF1, hUF2⟩ := hurun df hdf hne
  subst huseq
  refine ⟨r, hok, ?_⟩
  intro u hu
  simp only [List.mem_cons, List.not_mem_nil, or_false] at hu
  rcases hu with rfl | rfl
  · have hdb0 : dbFs.filter (fun fd => fd.check == "User C##XSTREAMADMIN") = [] :=
      filter_check_nil (fun f hf => by
        rcases (hdb f hf).2.1 with hc | hc | hc <;> simp [hc])
    have hx0 : xsFs.filter (fun fd => fd.check == "User C##XSTREAMADMIN") = [] :=
      filter_check_nil (fun f hf => by simp [(hxs f hf).2.1])
    have p1 : f1.check = "User C##XSTREAMADMIN" := by simpa using hUF1.2.1
    have p2 : ¬ f2.check = "User C##XSTREAMADMIN" := by simp [hUF2.2.1]
    refine ⟨f1, ?_, hUF1.2.2.1, hUF1.2.2.2.1⟩
    rw [h1]
    simp [List.filter_cons, List.filter_append, p1, p2, hdb0, hx0]
  · have hdb0 : dbFs.filter (fun fd => fd.check == "User C##CONNECTUSER") = [] :=
      filter_check_nil (fun f hf => by
        rcases (hdb f hf).2.1 with hc | hc | hc <;> simp [hc])
    have hx0 : xsFs.filter (fun fd => fd.check == "User C##CONNECTUSER") = [] :=
      filter_check_nil (fun f hf => by simp [(hxs f hf).2.1])
    have p1 : ¬ f1.check = "User C##CONNECTUSER" := by simp [hUF1.2.1]
    have p2 : f2.check = "User C##CONNECTUSER" := by simpa using hUF2.2.1
    refine ⟨f2, ?_, hUF2.2.2.1, hUF2.2.2.2.1⟩
    rw [h1]
    simp [List.filter_cons, List.filter_append, p1, p2, hdb0, hx0]

/-- Witness for C5 at a concrete `users_check` holding only the connect
account with status LOCKED: its Finding is FAIL with the unlock
remediation. -/
theorem c5_witness :
    ∃ r, analyze_configuration [("users_check", usersMixedDF)] = .ok r ∧
      ∃ f, r.details.filter (fun fd => fd.check == "User " ++ "C##CONNECTUSER") = [f] ∧
        f.status = "FAIL" ∧
        f.remediation = some ("ALTER USER " ++ "C##CONNECTUSER" ++ " ACCOUNT UNLOCK;") := by
  obtain ⟨r, hok, hall⟩ :=
    c5_users_accounts [("users_check", usersMixedDF)] usersMixedDF rfl rfl rfl rfl
  obtain ⟨f, hfil, hmiss, hcons⟩ := hall "C##CONNECTUSER" (by simp)
  refine ⟨r, hok, f, hfil, ?_⟩
  have hrow := hcons ["C##CONNECTUSER", "LOCKED", "YES", "CONNECTUSER_TBS"] [] (by decide)
  exact hrow.2 (by decide)

/-- Claim C6: an absent `xstream_outbound` key yields no XStream
Finding; a present key yields exactly one: FAIL with remediation when
the frame is empty, PASS (value reporting connect-user and queue) when
the first row's status is ENABLED or ATTACHED, and WARNING (never FAIL)
for any other status. -/
theorem c6_xstream_outbound (results : ResultSetCollection) (r : FindingsReport)
    (hok : analyze_configuration results = .ok r) :
    (lookupQ results "xstream_outbound" = none →
      r.details.filter (fun fd => fd.category == "XStream") = []) ∧
    (∀ df, lookupQ results "xstream_outbound" = some df →
      ∃ f, r.details.filter (fun fd => fd.category == "XStream") = [f] ∧
        (df.isEmptyDf = true →
          f.status = "FAIL" ∧
          f.remediation = some "Execute DBMS_XSTREAM_ADM.CREATE_OUTBOUND to create server") ∧
        (df.isEmptyDf = false →
          ((df.iloc0.get "STATUS" = some "ENABLED" ∨ df.iloc0.get "STATUS" = some "ATTACHED") →
            f.status = "PASS" ∧
            f.value = some ("Connect User: " ++ pyShow (df.iloc0.get "CONNECT_USER")
              ++ ", Queue: " ++ df.iloc0.getD "QUEUE_NAME" "N/A")) ∧
          (¬ (df.iloc0.get "STATUS" = some "ENABLED" ∨ df.iloc0.get "STATUS" = some "ATTACHED") →
            f.status = "WARNING"))) := by
  obtain ⟨dbFs, usFs, xsFs, h1, _, _, hdb, hus, hxs,
    _, _, _, _, hxskip, hxrun⟩ := analyze_decomp hok
  have hdb0 : dbFs.filter (fun fd => fd.category == "XStream") = [] :=
    filter_cat_nil (fun f hf => by rw [(hdb f hf).1]; decide)
  have hus0 : usFs.filter (fun fd => fd.category == "XStream") = [] :=
    filter_cat_nil (fun f hf => by rw [(hus f hf).1]; decide)
  constructor
  · intro hnone
    rw [h1]
    simp [List.filter_append, hdb0, hus0, hxskip hnone]
  · intro df hdf
    obtain ⟨fX, hxeq, hXF⟩ := hxrun df hdf
    subst hxeq
    have pX : (fX.category == "XStream") = true := by rw [hXF.1]; decide
    refine ⟨fX, ?_, hXF.2.2.1, fun he => ⟨fun hc => ?_, fun hc => ((hXF.2.2.2.1 he).2 hc).1⟩⟩
    · rw [h1]
      simp [List.filter_cons, List.filter_append, pX, hdb0, hus0]
    · have t := (hXF.2.2.2.1 he).1 hc
      exact ⟨t.1, t.2.2⟩

/-- Witness for C6 at a concrete collection with one ENABLED outbound
server: exactly one XStream Finding, PASS, value reporting the
connect-user and queue. -/
theorem c6_witness :
    ∃ r f, analyze_configuration [("xstream_outbound", xsEnabledDF)] = .ok r ∧
      r.details.filter (fun fd => fd.category == "XStream") = [f] ∧
      f.status = "PASS" ∧
      f.value = some ("Connect User: " ++ pyShow (xsEnabledDF.iloc0.get "CONNECT_USER")
        ++ ", Queue: " ++ xsEnabledDF.iloc0.getD "QUEUE_NAME" "N/A") := by
  obtain ⟨r, hok⟩ : ∃ r, analyze_configuration [("xstream_outbound", xsEnabledDF)] = .ok r :=
    ⟨_, rfl⟩
  obtain ⟨hnone, hsome⟩ := c6_xstream_outbound [("xstream_outbound", xsEnabledDF)] r hok
  obtain ⟨f, hfil, hempty, hne⟩ := hsome xsEnabledDF rfl
  have t := (hne (by decide)).1 (by decide)
  exact ⟨r, f, hok, hfil, t.1, t.2⟩

/-- Claim C9 is false as stated: a `database_info` row with minimal-only
supplemental logging yields a PASS Finding that carries a remediation
(the advisory upgrade), so remediations are not confined to FAIL and
WARNING findings. -/
theorem c9_counterexample :
    hasPassWithRemediation
      (analyze_configuration [("database_info", dbMinOnlyDF)]) = true := by
  decide

/-- Claim C9 (amended): a remediation appears only on FAIL Findings and
on the one advisory PASS (the Supplemental Logging minimal-only case);
no WARNING Finding carries a remediation. -/
theorem c9_remediation_discipline (results : ResultSetCollection)
    (r : FindingsReport) (f : Finding)
    (hok : analyze_configuration results = .ok r)
    (hmem : f ∈ r.details) (hrem : f.remediation.isSome = true) :
    f.status = "FAIL" ∨ (f.status = "PASS" ∧ f.check = "Supplemental Logging") := by
  obtain ⟨dbFs, usFs, xsFs, h1, _, _, hdb, hus, hxs, _⟩ := analyze_decomp hok
  rw [h1] at hmem
  rw [List.mem_append, List.mem_append] at hmem
  rcases hmem with (hm | hm) | hm
  · exact (hdb f hm).2.2 hrem
  · exact (hus f hm).2.2 hrem
  · exact (hxs f hm).2.2 hrem

/-- Witness for C9 (amended) at a concrete FAIL Finding carrying a
remediation. -/
theorem c9_witness :
    xsFailFinding.status = "FAIL"
      ∨ (xsFailFinding.status = "PASS" ∧ xsFailFinding.check = "Supplemental Logging") :=
  c9_remediation_discipline [("xstream_outbound", xsEmptyDF)]
    xsOnlyFailReport xsFailFinding (by decide) (by decide) (by decide)

/-- Claim C10 is false as stated: lower-casing every column name of a
`database_info` frame changes the analyzer's report (the reads are
exact upper-case matches, not case-insensitive). -/
theorem c10_counterexample :
    ¬ (analyze_configuration [("database_info", dbAllPassDF)]
        = analyze_configuration [("database_info", dbLowercaseDF)]) := by
  decide

/-- Claim C10 (amended): the analyzer reads field names
case-sensitively, by exact upper-case name; an all-passing upper-case
`database_info` yields summary (3,3,0,0) while its lower-cased variant
yields (3,0,2,1) — every `.get` falls back to its default. -/
theorem c10_case_sensitivity :
    summaryOf (analyze_configuration [("database_info", dbAllPassDF)])
      = some ⟨3, 3, 0, 0⟩ ∧
    summaryOf (analyze_configuration [("database_info", dbLowercaseDF)])
      = some ⟨3, 0, 2, 1⟩ := by
  decide
